import Mathlib

/-!
Shallow embedding of the multi-tenant EMR backend (NestJS/Prisma services)
and proofs about its tenant-scoped authorization, auth flows and entity
lifecycle operations.

Conventions of the embedding:
* the Prisma store is a record of lists of rows; `findUnique`/`findFirst`
  become `List.find?` over those lists, `create` appends a row, `update`
  maps the mutation over the rows matching the `where` key;
* timestamps and monetary amounts are `Int` (milliseconds since epoch /
  plain numbers; the source uses `Date` and `Decimal`);
* the uniform response envelope `{success, message, statusCode, data}` is
  the `Envelope` structure; NestJS `HttpException`s thrown by a service are
  modelled as the envelope the exception layer produces (they carry the
  same status code and message);
* external collaborators (bcrypt, nanoid, JWT) are modelled abstractly:
  the password hash is an injective tagging function, the nanoid draws are
  an explicit list of candidate codes, and a signed JWT is its claims
  record (`TokenPayload`).
-/

namespace EMR

/-- Prisma `Role` enum (roles observed in the source: ADMIN/DOCTOR/STAFF/NURSE). -/
inductive Role where
  | ADMIN
  | DOCTOR
  | STAFF
  | NURSE
deriving DecidableEq, Repr

/-- Prisma `BillingType` enum (values used by the services). -/
inductive BillingType where
  | REGISTRATION
  | OPERATION
deriving DecidableEq, Repr

/-- Prisma `PaymentStatus` enum (values used by the services). -/
inductive PaymentStatus where
  | UNPAID
  | PAID
deriving DecidableEq, Repr

/-- The `User` row. -/
structure User where
  id : String
  email : String
  password : String
  name : String
  role : Role
  deletedAt : Option Int := none
deriving DecidableEq, Repr

/-- The `Tenant` row. -/
structure Tenant where
  id : String
  name : String
  code : String
  address : Option String := none
  phone : Option String := none
  deletedAt : Option Int := none
deriving DecidableEq, Repr

/-- The `UserTenant` membership row, unique on the `(userId, tenantId)` pair. -/
structure UserTenant where
  userId : String
  tenantId : String
  role : Role
  deletedAt : Option Int := none
deriving DecidableEq, Repr

/-- The `Patient` row (fields the embedded services touch). -/
structure Patient where
  id : String
  tenantId : String
  patientNumber : String
  fullName : String
  registrationFee : Int
  noOfVisits : Nat := 0
  doctorId : Option String := none
  phone : Option String := none
  deletedAt : Option Int := none
deriving DecidableEq, Repr

/-- The `Doctor` profile row. -/
structure Doctor where
  id : String
  userId : String
  tenantId : String
  isActive : Bool := true
  deletedAt : Option Int := none
deriving DecidableEq, Repr

/-- The `Staff` profile row. -/
structure Staff where
  id : String
  userId : String
  tenantId : String
  isActive : Bool := true
  deletedAt : Option Int := none
deriving DecidableEq, Repr

/-- The `Visit` row. -/
structure Visit where
  id : String
  patientId : String
  doctorId : String
  staffId : String
  notes : String
  consultationFee : Int
  visitDate : Int
  feeValidUntil : Option Int := none
  deletedAt : Option Int := none
deriving DecidableEq, Repr

/-- The `Operation` row. -/
structure Operation where
  id : String
  patientId : String
  name : String
  date : Int
  surgeonId : String
  fee : Int
  outcome : Option String := none
  deletedAt : Option Int := none
deriving DecidableEq, Repr

/-- The `Billing` row. -/
structure Billing where
  id : String
  patientId : String
  btype : BillingType
  amount : Int
  status : PaymentStatus
  createdAt : Int
  deletedAt : Option Int := none
deriving DecidableEq, Repr

/-- The persistent store: one list of rows per Prisma model. -/
structure Store where
  users : List User := []
  tenants : List Tenant := []
  userTenants : List UserTenant := []
  patients : List Patient := []
  doctors : List Doctor := []
  staffs : List Staff := []
  visits : List Visit := []
  operations : List Operation := []
  billings : List Billing := []
deriving DecidableEq, Repr

/-- The authenticated caller as passed to every service method
(`user: { id: string; tenantId: string }`, extracted from the JWT). -/
structure Caller where
  id : String
  tenantId : String
deriving DecidableEq, Repr

/-- The uniform response envelope `{ success, message, statusCode, data }`. -/
structure Envelope (α : Type) where
  success : Bool
  message : String
  statusCode : Nat
  data : Option α := none
deriving DecidableEq, Repr

/-- The `prisma.userTenant.findUnique({ where: { userId_tenantId: { userId, tenantId } } })`. -/
def findUserTenant (s : Store) (userId tenantId : String) : Option UserTenant :=
  s.userTenants.find? (fun ut => ut.userId == userId && ut.tenantId == tenantId)

/-- The `OperationsService.isAuthorizedInTenant` (also the `StaffsService` and
second `DoctorsService` variant): membership lookup, then
`requiredRoles.includes(userTenant.role)`; no `deletedAt` filter. -/
def OperationsService.isAuthorizedInTenant
    (s : Store) (userId tenantId : String) (requiredRoles : List Role) : Bool :=
  match findUserTenant s userId tenantId with
  | none => false
  | some userTenant => requiredRoles.contains userTenant.role

/-- The `VisitsService.isAuthorizedInTenant` (identical in `PatientsService`):
membership lookup, then `role === ADMIN || DOCTOR || STAFF || NURSE`;
no `deletedAt` filter. -/
def VisitsService.isAuthorizedInTenant (s : Store) (userId tenantId : String) : Bool :=
  match findUserTenant s userId tenantId with
  | none => false
  | some userTenant =>
    userTenant.role == Role.ADMIN || userTenant.role == Role.DOCTOR ||
      userTenant.role == Role.STAFF || userTenant.role == Role.NURSE

/-- The `VisitsService.isAdminInTenant` (identical in `PatientsService`):
`userTenant?.role === Role.ADMIN`. -/
def VisitsService.isAdminInTenant (s : Store) (userId tenantId : String) : Bool :=
  match findUserTenant s userId tenantId with
  | none => false
  | some userTenant => userTenant.role == Role.ADMIN

/-- The `PatientsService.isAuthorizedInTenant` — same code as the visits variant. -/
def PatientsService.isAuthorizedInTenant (s : Store) (userId tenantId : String) : Bool :=
  VisitsService.isAuthorizedInTenant s userId tenantId

/-- The `PatientsService.isAdminInTenant` — same code as the visits variant. -/
def PatientsService.isAdminInTenant (s : Store) (userId tenantId : String) : Bool :=
  VisitsService.isAdminInTenant s userId tenantId

/-! ## findOne of the three entity services (fetch by id, then tenant check) -/

/-- The `PatientsService.findOne`: fetch the patient by id alone; `404` when
missing or soft-deleted; `403` when the row's tenant differs from the
caller's or the caller is not authorized; `200` otherwise. -/
def PatientsService.findOne (s : Store) (id : String) (user : Caller) : Envelope Patient :=
  match s.patients.find? (fun p => p.id == id) with
  | none =>
    { success := false, message := "Patient not found or deleted", statusCode := 404, data := none }
  | some patient =>
    if patient.deletedAt.isSome then
      { success := false, message := "Patient not found or deleted", statusCode := 404, data := none }
    else if patient.tenantId != user.tenantId ||
        !(PatientsService.isAuthorizedInTenant s user.id user.tenantId) then
      { success := false, message := "You are not authorized to view this patient",
        statusCode := 403, data := none }
    else
      { success := true, message := "Patient retrieved successfully", statusCode := 200,
        data := some patient }

/-- The `VisitsService.findOne`: fetch the visit by id with its patient included
(the relation is required by the schema, so the inner `none` case is
unreachable on stores with referential integrity; it is mapped to the
generic 500 envelope). `404` when missing or soft-deleted; `403` when the
patient's tenant differs from the caller's or the caller is unauthorized. -/
def VisitsService.findOne (s : Store) (id : String) (user : Caller) : Envelope Visit :=
  match s.visits.find? (fun v => v.id == id) with
  | none =>
    { success := false, message := "Visit not found or deleted", statusCode := 404, data := none }
  | some visit =>
    if visit.deletedAt.isSome then
      { success := false, message := "Visit not found or deleted", statusCode := 404, data := none }
    else
      match s.patients.find? (fun p => p.id == visit.patientId) with
      | none =>
        { success := false, message := "Internal server error", statusCode := 500, data := none }
      | some patient =>
        if patient.tenantId != user.tenantId ||
            !(VisitsService.isAuthorizedInTenant s user.id user.tenantId) then
          { success := false, message := "You are not authorized to view this visit",
            statusCode := 403, data := none }
        else
          { success := true, message := "Visit retrieved successfully", statusCode := 200,
            data := some visit }

/-- The `OperationsService.findOne`: same fetch-then-check shape as
`VisitsService.findOne`, with the read role set `[ADMIN, DOCTOR, STAFF, NURSE]`. -/
def OperationsService.findOne (s : Store) (id : String) (user : Caller) : Envelope Operation :=
  match s.operations.find? (fun o => o.id == id) with
  | none =>
    { success := false, message := "Operation not found or deleted", statusCode := 404, data := none }
  | some operation =>
    if operation.deletedAt.isSome then
      { success := false, message := "Operation not found or deleted", statusCode := 404,
        data := none }
    else
      match s.patients.find? (fun p => p.id == operation.patientId) with
      | none =>
        { success := false, message := "Internal server error", statusCode := 500, data := none }
      | some patient =>
        if patient.tenantId != user.tenantId ||
            !(OperationsService.isAuthorizedInTenant s user.id user.tenantId
              [Role.ADMIN, Role.DOCTOR, Role.STAFF, Role.NURSE]) then
          { success := false, message := "You are not authorized to view this operation",
            statusCode := 403, data := none }
        else
          { success := true, message := "Operation retrieved successfully", statusCode := 200,
            data := some operation }

/-! ## Patient numbering -/

/-- JavaScript `String.prototype.toUpperCase()` (character-wise uppercase). -/
def toUpperStr (str : String) : String :=
  String.mk (str.data.map Char.toUpper)

/-- JavaScript `String.prototype.padStart(targetLength, padChar)`. -/
def padStart (str : String) (targetLength : Nat) (padChar : Char) : String :=
  if str.length ≥ targetLength then str
  else String.mk (List.replicate (targetLength - str.length) padChar) ++ str

/-- The `PatientsService.generatePatientNumber`: `none` models the thrown
`NotFoundException` when the tenant row is missing; otherwise
`PT-<code uppercased>-<(count of the tenant's patient rows)+1 padded to 3>`.
The `patient.count` has no `deletedAt` filter, so soft-deleted patients count. -/
def PatientsService.generatePatientNumber (s : Store) (tenantId : String) : Option String :=
  match s.tenants.find? (fun t => t.id == tenantId) with
  | none => none
  | some tenant =>
    let count := (s.patients.filter (fun p => p.tenantId == tenantId)).length
    some ("PT-" ++ toUpperStr tenant.code ++ "-" ++ padStart (toString (count + 1)) 3 '0')

/-- Spec-side rendering of the sequence number: the decimal digits of the
sequence, left-padded with zeros to 3 characters ("left-padded with zeros
to 3 digits"). -/
def specLeftPad3 (digits : String) : String :=
  String.mk (List.replicate (3 - digits.length) '0') ++ digits

/-- Spec-side patient-number format, written from the spec's words:
`"PT-" ++ uppercased tenant code ++ "-" ++ (existing count + 1) left-padded
with zeros to 3 digits`. -/
def specPatientNumber (tenantCode : String) (existingCount : Nat) : String :=
  "PT-" ++ toUpperStr tenantCode ++ "-" ++ specLeftPad3 (toString (existingCount + 1))

/-! ## AuthService: login and signup -/

/-- JWT claims signed into the access token (`{ email, id, role, tenantId }`);
the token collaborator is modelled as the claims themselves. -/
structure TokenPayload where
  email : String
  id : String
  role : Role
  tenantId : String
deriving DecidableEq, Repr

/-- The `(id, name, code)` tenant summary returned by login. -/
structure TenantSummary where
  id : String
  name : String
  code : String
deriving DecidableEq, Repr

/-- The user summary returned by a successful login. -/
structure UserSummary where
  id : String
  email : String
  name : String
  role : Role
deriving DecidableEq, Repr

/-- A `userTenant` row with its `tenant` included, as produced by
`validateUser`'s `findMany({ include: { tenant: true } })`. -/
structure UserTenantJoined where
  userId : String
  tenantId : String
  role : Role
  deletedAt : Option Int := none
  tenant : Tenant
deriving DecidableEq, Repr

/-- The shape of `AuthService.login`'s result object: the uniform envelope
fields plus the optional `isMultiTenant` flag, tenant list, token and
user/tenant summaries (absent JS fields are the defaults here). -/
structure LoginResponse where
  success : Bool
  statusCode : Nat
  message : String
  isMultiTenant : Bool := false
  tenants : List TenantSummary := []
  token : Option TokenPayload := none
  user : Option UserSummary := none
  tenant : Option TenantSummary := none
deriving DecidableEq, Repr

/-- The token-issuing tail of `AuthService.login` once a single tenant is
resolved: claims are `{email, id, role: user.role, tenantId: tenant.id}`. -/
def AuthService.issueLogin (user : User) (tenant : Tenant) : LoginResponse :=
  { success := true, statusCode := 200, message := "Login successful",
    token := some { email := user.email, id := user.id, role := user.role, tenantId := tenant.id },
    user := some { id := user.id, email := user.email, name := user.name, role := user.role },
    tenant := some { id := tenant.id, name := tenant.name, code := tenant.code } }

/-- The `AuthService.login`. `tenantCode` is optional and JavaScript-falsy when
the empty string, in which case the membership-count branches run. The
multi-tenant branch returns the tenant summaries with `isMultiTenant=true`
and no token; a non-matching code yields the caught
`BadRequestException('Invalid tenant code')` as a 400 envelope. -/
def AuthService.login (user : User) (userTenants : List UserTenantJoined)
    (tenantCode : Option String) : LoginResponse :=
  let code := tenantCode.getD ""
  if code != "" then
    match userTenants.find? (fun ut => ut.tenant.code == code) with
    | none =>
      { success := false, statusCode := 400, message := "Invalid tenant code" }
    | some ut => AuthService.issueLogin user ut.tenant
  else if userTenants.length == 1 then
    match userTenants with
    | ut :: _ => AuthService.issueLogin user ut.tenant
    | [] =>
      { success := false, statusCode := 400, message := "User is not assigned to any tenant" }
  else if userTenants.length > 1 then
    { success := true, statusCode := 200, message := "Multiple tenants found. Please select one.",
      isMultiTenant := true,
      tenants := userTenants.map (fun ut =>
        { id := ut.tenant.id, name := ut.tenant.name, code := ut.tenant.code }) }
  else
    { success := false, statusCode := 400, message := "User is not assigned to any tenant" }

/-- The `SignupDto` (required fields plus the optional tenant address/phone). -/
structure SignupDto where
  email : String
  password : String
  name : String
  tenantName : String
  address : Option String := none
  phone : Option String := none
deriving DecidableEq, Repr

/-- The bcrypt collaborator, modelled as an injective tagging function. -/
def bcryptHash (plaintext : String) : String :=
  "bcrypt-" ++ plaintext

/-- The data object of a successful signup envelope. -/
structure SignupData where
  user : UserSummary
  tenant : TenantSummary
deriving DecidableEq, Repr

/-- The tenant-code generation loop: draw candidates in order (each drawn
nanoid is uppercased) until one is not already a tenant code. The source
loops on an unbounded random stream; the embedding consumes an explicit
list of draws, and the exhausted case (unreachable when the list contains
a free code, and nonterminating in the source) yields `none`. -/
def genTenantCode (s : Store) : List String → Option String
  | [] => none
  | c :: rest =>
    let code := toUpperStr c
    if (s.tenants.find? (fun t => t.code == code)).isSome then genTenantCode s rest
    else some code

/-- The `AuthService.signup`. Steps, in source order and with **no transaction**:
validate required fields (a thrown `BadRequestException` reaches the
generic catch, hence the 500 envelope); 409 if the email is taken; create
the User row; run the tenant-code loop; create the Tenant row; create the
UserTenant membership. `utInsertFails` models a storage-layer failure of
that final insert, which the source catches and turns into the generic 500
envelope — leaving the already-created User and Tenant rows in the store. -/
def AuthService.signup (s : Store) (data : SignupDto) (newUserId newTenantId : String)
    (codes : List String) (utInsertFails : Bool) : Envelope SignupData × Store :=
  if data.email == "" || data.password == "" || data.name == "" || data.tenantName == "" then
    ({ success := false, statusCode := 500, message := "Internal server error" }, s)
  else
    match s.users.find? (fun u => u.email == data.email) with
    | some _ =>
      ({ success := false, statusCode := 409, message := "User already exists. Please login." }, s)
    | none =>
      let user : User :=
        { id := newUserId, email := data.email, password := bcryptHash data.password,
          name := data.name, role := Role.ADMIN }
      let s1 : Store := { s with users := s.users ++ [user] }
      match genTenantCode s1 codes with
      | none =>
        ({ success := false, statusCode := 500, message := "Internal server error" }, s1)
      | some code =>
        let tenant : Tenant :=
          { id := newTenantId, name := data.tenantName, code := code,
            address := data.address, phone := data.phone }
        let s2 : Store := { s1 with tenants := s1.tenants ++ [tenant] }
        if utInsertFails then
          ({ success := false, statusCode := 500, message := "Internal server error" }, s2)
        else
          let ut : UserTenant :=
            { userId := newUserId, tenantId := newTenantId, role := Role.ADMIN }
          ({ success := true, statusCode := 201,
             message := "Signup successful. Tenant created and admin assigned.",
             data := some
               { user := { id := user.id, email := user.email, name := user.name, role := user.role },
                 tenant := { id := tenant.id, name := tenant.name, code := tenant.code } } },
           { s2 with userTenants := s2.userTenants ++ [ut] })

/-! ## VisitsService.create (14-day fee-waiver window) -/

/-- The `CreateVisitDto` (`notes` and `consultationFee` optional). -/
structure CreateVisitDto where
  patientId : String
  doctorId : String
  notes : Option String := none
  consultationFee : Option Int := none
deriving DecidableEq, Repr

/-- One day in milliseconds (`24 * 60 * 60 * 1000`). -/
def dayMs : Int := 86400000

/-- The `consultationFee` validation guard of the visits service: provided
and negative (`fee.lt(0)`). -/
def negFee (fee : Option Int) : Bool :=
  match fee with
  | none => false
  | some f => decide (f < 0)

/-- The `fee` validation guard of `OperationsService.update`: provided and
non-positive (`fee.lte(0)`). -/
def nonPosFee (fee : Option Int) : Bool :=
  match fee with
  | none => false
  | some f => decide (f ≤ 0)

/-- The `visit.findFirst({ where: { patientId }, orderBy: { visitDate: 'desc' } })`:
the patient's visit with the greatest `visitDate` (no `deletedAt` filter in
the source), earliest-listed row winning ties. -/
def lastVisitOf (s : Store) (patientId : String) : Option Visit :=
  (s.visits.filter (fun v => v.patientId == patientId)).foldl
    (fun acc v =>
      match acc with
      | none => some v
      | some a => if v.visitDate > a.visitDate then some v else acc)
    none

/-- The `VisitsService.create`. `now` is `Date.now()`; `newVisitId`/`newBillingId`
are the ids the storage layer generates. Checks: authorization, tenant
exists, patient exists in the caller's tenant, doctor exists in the
caller's tenant, non-negative fee. Then `needsNewFee` is true when there is
no prior visit or the latest one is strictly older than 14 days; the visit
is created (`visitDate` defaults to now; `feeValidUntil` is `now + 14d`
or inherited), `noOfVisits` is incremented, and a REGISTRATION billing row
for the patient's `registrationFee` is added when `needsNewFee`. -/
def VisitsService.create (s : Store) (dto : CreateVisitDto) (user : Caller)
    (now : Int) (newVisitId newBillingId : String) : Envelope Visit × Store :=
  let tenantId := user.tenantId
  if !(VisitsService.isAuthorizedInTenant s user.id tenantId) then
    ({ success := false, message := "You are not authorized to create visits in this tenant",
       statusCode := 403 }, s)
  else
    match s.tenants.find? (fun t => t.id == tenantId) with
    | none =>
      ({ success := false, message := "Tenant not found or deleted", statusCode := 404 }, s)
    | some _ =>
      match s.patients.find? (fun p => p.id == dto.patientId && p.tenantId == tenantId) with
      | none =>
        ({ success := false, message := "Patient not found or deleted", statusCode := 404 }, s)
      | some patient =>
        match s.doctors.find? (fun d => d.id == dto.doctorId && d.tenantId == tenantId) with
        | none =>
          ({ success := false, message := "Doctor not found in this tenant", statusCode := 404 }, s)
        | some _ =>
          if negFee dto.consultationFee then
            ({ success := false, message := "Consultation fee cannot be negative",
               statusCode := 400 }, s)
          else
            let lastVisit := lastVisitOf s dto.patientId
            let fourteenDaysAgo := now - 14 * dayMs
            let needsNewFee :=
              match lastVisit with
              | none => true
              | some lv => decide (lv.visitDate < fourteenDaysAgo)
            let visit : Visit :=
              { id := newVisitId, patientId := dto.patientId, doctorId := dto.doctorId,
                staffId := user.id,
                notes :=
                  match dto.notes with
                  | none => "New visit"
                  | some n => if n == "" then "New visit" else n,
                consultationFee := dto.consultationFee.getD 0,
                visitDate := now,
                feeValidUntil :=
                  if needsNewFee then some (now + 14 * dayMs)
                  else lastVisit.bind (fun lv => lv.feeValidUntil) }
            let s1 : Store := { s with visits := s.visits ++ [visit] }
            let s2 : Store :=
              { s1 with patients := s1.patients.map (fun p =>
                  if p.id == dto.patientId then { p with noOfVisits := p.noOfVisits + 1 } else p) }
            let s3 : Store :=
              if needsNewFee then
                { s2 with billings := s2.billings ++
                    [{ id := newBillingId, patientId := dto.patientId,
                       btype := BillingType.REGISTRATION, amount := patient.registrationFee,
                       status := PaymentStatus.UNPAID, createdAt := now }] }
              else s2
            ({ success := true, message := "Visit created successfully", statusCode := 201,
               data := some visit }, s3)

/-! ## PatientsService.create -/

/-- The `CreatePatientDto` (fields the embedded service touches). -/
structure CreatePatientDto where
  fullName : String
  registrationFee : Int
  doctorId : Option String := none
  phone : Option String := none
deriving DecidableEq, Repr

/-- The phone validation regex `/^\d{10,15}$/`. -/
def phoneOk (phone : String) : Bool :=
  phone.data.all Char.isDigit && decide (10 ≤ phone.length) && decide (phone.length ≤ 15)

/-- The `doctorId` validation guard of `PatientsService.create`: provided and
not found in the caller's tenant. -/
def doctorMissing (s : Store) (tenantId : String) (doctorId : Option String) : Bool :=
  match doctorId with
  | none => false
  | some did => (s.doctors.find? (fun d => d.id == did && d.tenantId == tenantId)).isNone

/-- The phone validation guard of `PatientsService.create`: provided and
failing the regex (the empty string is JavaScript-falsy and skipped). -/
def phoneBad (phone : Option String) : Bool :=
  match phone with
  | none => false
  | some ph => ph != "" && !(phoneOk ph)

/-- The `PatientsService.create`. Checks: authorization, tenant exists, positive
`registrationFee`, optional doctor in tenant, optional phone format. Then
generates the patient number and creates the Patient row, the initial
REGISTRATION/UNPAID Billing row for the fee, the initial Visit row
(notes `Initial registration`, fee 0, `doctorId || ''`), and sets
`noOfVisits` to 1. -/
def PatientsService.create (s : Store) (dto : CreatePatientDto) (user : Caller)
    (now : Int) (newPatientId newBillingId newVisitId : String) : Envelope Patient × Store :=
  let tenantId := user.tenantId
  if !(PatientsService.isAuthorizedInTenant s user.id tenantId) then
    ({ success := false, message := "You are not authorized to create patients in this tenant",
       statusCode := 403 }, s)
  else
    match s.tenants.find? (fun t => t.id == tenantId) with
    | none =>
      ({ success := false, message := "Tenant not found or deleted", statusCode := 404 }, s)
    | some tenant =>
      if dto.registrationFee ≤ 0 then
        ({ success := false, message := "Registration fee must be positive", statusCode := 400 }, s)
      else if doctorMissing s tenantId dto.doctorId then
        ({ success := false, message := "Doctor not found in this tenant", statusCode := 404 }, s)
      else if phoneBad dto.phone then
        ({ success := false, message := "Invalid phone format", statusCode := 400 }, s)
      else
        let count := (s.patients.filter (fun p => p.tenantId == tenantId)).length
        let patientNumber :=
          "PT-" ++ toUpperStr tenant.code ++ "-" ++ padStart (toString (count + 1)) 3 '0'
        let patient : Patient :=
          { id := newPatientId, tenantId := tenantId, patientNumber := patientNumber,
            fullName := dto.fullName, registrationFee := dto.registrationFee,
            doctorId := dto.doctorId, phone := dto.phone }
        let s1 : Store := { s with patients := s.patients ++ [patient] }
        let s2 : Store :=
          { s1 with billings := s1.billings ++
              [{ id := newBillingId, patientId := newPatientId,
                 btype := BillingType.REGISTRATION, amount := dto.registrationFee,
                 status := PaymentStatus.UNPAID, createdAt := now }] }
        let s3 : Store :=
          { s2 with visits := s2.visits ++
              [{ id := newVisitId, patientId := newPatientId,
                 doctorId := dto.doctorId.getD "", staffId := user.id,
                 notes := "Initial registration", consultationFee := 0, visitDate := now }] }
        let s4 : Store :=
          { s3 with patients := s3.patients.map (fun p =>
              if p.id == newPatientId then { p with noOfVisits := 1 } else p) }
        ({ success := true, message := "Patient created successfully", statusCode := 201,
           data := some patient }, s4)

/-! ## OperationsService: create, update, remove -/

/-- The `CreateOperationDto`. -/
structure CreateOperationDto where
  patientId : String
  name : String
  date : Int
  surgeonId : String
  fee : Int
  outcome : Option String := none
deriving DecidableEq, Repr

/-- The `UpdateOperationDto` — every field optional. -/
structure UpdateOperationDto where
  name : Option String := none
  date : Option Int := none
  surgeonId : Option String := none
  fee : Option Int := none
  outcome : Option String := none
deriving DecidableEq, Repr

/-- The `billing.findFirst({ where: { patientId, type: OPERATION, deletedAt: null },
orderBy: { createdAt: 'desc' } })`: the most recent non-deleted OPERATION
billing row of the patient, earliest-listed row winning ties. -/
def latestOpBilling (s : Store) (patientId : String) : Option Billing :=
  (s.billings.filter (fun b =>
      b.patientId == patientId && b.btype == BillingType.OPERATION && b.deletedAt.isNone)).foldl
    (fun acc b =>
      match acc with
      | none => some b
      | some a => if b.createdAt > a.createdAt then some b else acc)
    none

/-- The `OperationsService.create`. Checks: authorization (`[DOCTOR, ADMIN]`),
patient and surgeon exist non-deleted in the caller's tenant, positive fee
(rejected with 400 before any write). Then creates the Operation row, an
OPERATION/UNPAID Billing row for the fee, and appends a note to the
patient's latest non-deleted visit when one exists. -/
def OperationsService.create (s : Store) (dto : CreateOperationDto) (user : Caller)
    (now : Int) (newOperationId newBillingId : String) : Envelope Operation × Store :=
  if !(OperationsService.isAuthorizedInTenant s user.id user.tenantId
      [Role.DOCTOR, Role.ADMIN]) then
    ({ success := false, message := "You are not authorized to create operations in this tenant",
       statusCode := 403 }, s)
  else
    match s.patients.find? (fun p =>
        p.id == dto.patientId && p.tenantId == user.tenantId && p.deletedAt.isNone) with
    | none =>
      ({ success := false, message := "Patient not found or not in your tenant",
         statusCode := 404 }, s)
    | some _ =>
      match s.doctors.find? (fun d =>
          d.id == dto.surgeonId && d.tenantId == user.tenantId && d.deletedAt.isNone) with
      | none =>
        ({ success := false, message := "Surgeon not found in this tenant", statusCode := 404 }, s)
      | some _ =>
        if dto.fee ≤ 0 then
          ({ success := false, message := "Operation fee must be positive", statusCode := 400 }, s)
        else
          let operation : Operation :=
            { id := newOperationId, patientId := dto.patientId, name := dto.name,
              date := dto.date, surgeonId := dto.surgeonId, fee := dto.fee,
              outcome := dto.outcome }
          let s1 : Store := { s with operations := s.operations ++ [operation] }
          let s2 : Store :=
            { s1 with billings := s1.billings ++
                [{ id := newBillingId, patientId := dto.patientId,
                   btype := BillingType.OPERATION, amount := dto.fee,
                   status := PaymentStatus.UNPAID, createdAt := now }] }
          let latestVisit :=
            (s2.visits.filter (fun v => v.patientId == dto.patientId && v.deletedAt.isNone)).foldl
              (fun acc v =>
                match acc with
                | none => some v
                | some a => if v.visitDate > a.visitDate then some v else acc)
              none
          let s3 : Store :=
            match latestVisit with
            | none => s2
            | some lv =>
              { s2 with visits := s2.visits.map (fun v =>
                  if v.id == lv.id then
                    { v with notes := v.notes ++ "\nOperation scheduled: " ++ dto.name }
                  else v) }
          ({ success := true, message := "Operation created successfully", statusCode := 201,
             data := some operation }, s3)

/-- The JavaScript object-spread update of an Operation row by
`UpdateOperationDto` (absent fields leave the row unchanged; a provided
`outcome` replaces it). -/
def applyOperationUpdate (op : Operation) (dto : UpdateOperationDto) : Operation :=
  { op with
    name := dto.name.getD op.name,
    date := dto.date.getD op.date,
    surgeonId := dto.surgeonId.getD op.surgeonId,
    fee := dto.fee.getD op.fee,
    outcome := match dto.outcome with | none => op.outcome | some o => some o }

/-- The `OperationsService.update`. Fetch-then-check (404 missing/deleted, 403
tenant mismatch or role outside `[ADMIN, DOCTOR]`), 400 on a provided
non-positive fee before any write; then updates the row and, when a fee is
provided, sets the most recent non-deleted OPERATION Billing row's amount
to it. The inner patient-relation `none` case is unreachable under
referential integrity. -/
def OperationsService.update (s : Store) (id : String) (dto : UpdateOperationDto)
    (user : Caller) : Envelope Operation × Store :=
  match s.operations.find? (fun o => o.id == id) with
  | none =>
    ({ success := false, message := "Operation not found or deleted", statusCode := 404 }, s)
  | some operation =>
    if operation.deletedAt.isSome then
      ({ success := false, message := "Operation not found or deleted", statusCode := 404 }, s)
    else
      match s.patients.find? (fun p => p.id == operation.patientId) with
      | none =>
        ({ success := false, message := "Internal server error", statusCode := 500 }, s)
      | some patient =>
        if patient.tenantId != user.tenantId ||
            !(OperationsService.isAuthorizedInTenant s user.id user.tenantId
              [Role.ADMIN, Role.DOCTOR]) then
          ({ success := false, message := "You are not authorized to update this operation",
             statusCode := 403 }, s)
        else if nonPosFee dto.fee then
          ({ success := false, message := "Operation fee must be positive", statusCode := 400 }, s)
        else
          let updated := applyOperationUpdate operation dto
          let s1 : Store :=
            { s with operations := s.operations.map (fun o => if o.id == id then updated else o) }
          let s2 : Store :=
            match dto.fee with
            | none => s1
            | some f =>
              match latestOpBilling s1 operation.patientId with
              | none => s1
              | some billing =>
                { s1 with billings := s1.billings.map (fun b =>
                    if b.id == billing.id then { b with amount := f } else b) }
          ({ success := true, message := "Operation updated successfully", statusCode := 200,
             data := some updated }, s2)

/-- The `OperationsService.remove`. Fetch-then-check (404 when missing or already
soft-deleted — message `Operation not found or already deleted` — with the
store unchanged; 403 on tenant mismatch or non-admin); then soft-deletes
the operation and the patient's most recent non-deleted OPERATION Billing
row. -/
def OperationsService.remove (s : Store) (id : String) (user : Caller)
    (now : Int) : Envelope Operation × Store :=
  match s.operations.find? (fun o => o.id == id) with
  | none =>
    ({ success := false, message := "Operation not found or already deleted",
       statusCode := 404 }, s)
  | some operation =>
    if operation.deletedAt.isSome then
      ({ success := false, message := "Operation not found or already deleted",
         statusCode := 404 }, s)
    else
      match s.patients.find? (fun p => p.id == operation.patientId) with
      | none =>
        ({ success := false, message := "Internal server error", statusCode := 500 }, s)
      | some patient =>
        if patient.tenantId != user.tenantId ||
            !(OperationsService.isAuthorizedInTenant s user.id user.tenantId [Role.ADMIN]) then
          ({ success := false, message := "You must be an admin in this tenant to delete operations",
             statusCode := 403 }, s)
        else
          let deleted : Operation := { operation with deletedAt := some now }
          let s1 : Store :=
            { s with operations := s.operations.map (fun o =>
                if o.id == id then { o with deletedAt := some now } else o) }
          let s2 : Store :=
            match latestOpBilling s1 operation.patientId with
            | none => s1
            | some billing =>
              { s1 with billings := s1.billings.map (fun b =>
                  if b.id == billing.id then { b with deletedAt := some now } else b) }
          ({ success := true, message := "Operation deleted successfully", statusCode := 200,
             data := some deleted }, s2)

/-! ## DoctorsService.restore and StaffsService.restore -/

/-- The `DoctorsService.restore`. The service throws `NotFoundException('Doctor
not found or not deleted')` when the row is missing or **not** soft-deleted
(modelled as the 404 envelope the exception layer produces, with the store
unchanged) and `ForbiddenException` on tenant mismatch or non-admin;
otherwise a transaction clears `deletedAt` on the User, the UserTenant
membership and the Doctor row and sets `isActive`. -/
def DoctorsService.restore (s : Store) (id : String) (user : Caller) : Envelope Doctor × Store :=
  match s.doctors.find? (fun d => d.id == id) with
  | none =>
    ({ success := false, message := "Doctor not found or not deleted", statusCode := 404 }, s)
  | some doctor =>
    if doctor.deletedAt.isNone then
      ({ success := false, message := "Doctor not found or not deleted", statusCode := 404 }, s)
    else if doctor.tenantId != user.tenantId ||
        !(OperationsService.isAuthorizedInTenant s user.id user.tenantId [Role.ADMIN]) then
      ({ success := false, message := "You must be an admin in this tenant to restore doctors",
         statusCode := 403 }, s)
    else
      let s1 : Store :=
        { s with users := s.users.map (fun u =>
            if u.id == doctor.userId then { u with deletedAt := none } else u) }
      let s2 : Store :=
        { s1 with userTenants := s1.userTenants.map (fun ut =>
            if ut.userId == doctor.userId && ut.tenantId == doctor.tenantId then
              { ut with deletedAt := none }
            else ut) }
      let restored : Doctor := { doctor with deletedAt := none, isActive := true }
      let s3 : Store :=
        { s2 with doctors := s2.doctors.map (fun d => if d.id == id then restored else d) }
      ({ success := true, message := "Doctor restored successfully", statusCode := 200,
         data := some restored }, s3)

/-- The `StaffsService.restore` — same shape as `DoctorsService.restore` over the
Staff rows, message `Staff not found or not deleted`. -/
def StaffsService.restore (s : Store) (id : String) (user : Caller) : Envelope Staff × Store :=
  match s.staffs.find? (fun st => st.id == id) with
  | none =>
    ({ success := false, message := "Staff not found or not deleted", statusCode := 404 }, s)
  | some staff =>
    if staff.deletedAt.isNone then
      ({ success := false, message := "Staff not found or not deleted", statusCode := 404 }, s)
    else if staff.tenantId != user.tenantId ||
        !(OperationsService.isAuthorizedInTenant s user.id user.tenantId [Role.ADMIN]) then
      ({ success := false, message := "You must be an admin in this tenant to restore staff",
         statusCode := 403 }, s)
    else
      let s1 : Store :=
        { s with users := s.users.map (fun u =>
            if u.id == staff.userId then { u with deletedAt := none } else u) }
      let s2 : Store :=
        { s1 with userTenants := s1.userTenants.map (fun ut =>
            if ut.userId == staff.userId && ut.tenantId == staff.tenantId then
              { ut with deletedAt := none }
            else ut) }
      let restored : Staff := { staff with deletedAt := none, isActive := true }
      let s3 : Store :=
        { s2 with staffs := s2.staffs.map (fun st => if st.id == id then restored else st) }
      ({ success := true, message := "Staff restored successfully", statusCode := 200,
         data := some restored }, s3)

/-! ## Helper lemmas about `find?` over row updates -/

/-- A `find?` after an `update`-style `map` whose mutation preserves the
`where`-key predicate finds the mutated row. -/
theorem find?_map_pres {α : Type} (p : α → Bool) (g : α → α)
    (hg : ∀ y, p (g y) = p y) :
    ∀ (l : List α) (x : α), l.find? p = some x → (l.map g).find? p = some (g x) := by
  intro l
  induction l with
  | nil => intro x h; simp at h
  | cons a t ih =>
    intro x h
    by_cases hpa : p a = true
    · rw [List.find?_cons_of_pos _ hpa] at h
      cases h
      rw [List.map_cons, List.find?_cons_of_pos]
      rw [hg]; exact hpa
    · rw [List.find?_cons_of_neg _ (by simpa using hpa)] at h
      rw [List.map_cons, List.find?_cons_of_neg]
      · exact ih x h
      · simpa [hg] using hpa

/-- A `find?` returning no row is preserved by a key-preserving `map`. -/
theorem find?_map_pres_none {α : Type} (p : α → Bool) (g : α → α)
    (hg : ∀ y, p (g y) = p y) :
    ∀ (l : List α), l.find? p = none → (l.map g).find? p = none := by
  intro l
  induction l with
  | nil => intro _; simp
  | cons a t ih =>
    intro h
    rw [List.find?_cons] at h
    rw [List.map_cons, List.find?_cons]
    cases hpa : p a with
    | true => rw [hpa] at h; cases h
    | false =>
      rw [hpa] at h
      rw [hg, hpa]
      exact ih h

/-! ## C3: the membership authorization helpers -/

/-- C3 counterexample: in a store whose only membership row is soft-deleted
(`deletedAt = some 5`) with role ADMIN, the authorization helpers return
`true`; the claim says a soft-deleted membership must yield `false`. -/
theorem authorize_soft_deleted_counterexample :
    OperationsService.isAuthorizedInTenant
      { userTenants := [{ userId := "u1", tenantId := "t1", role := Role.ADMIN,
                          deletedAt := some 5 }] }
      "u1" "t1" [Role.ADMIN] = true
    ∧ VisitsService.isAuthorizedInTenant
      { userTenants := [{ userId := "u1", tenantId := "t1", role := Role.ADMIN,
                          deletedAt := some 5 }] }
      "u1" "t1" = true
    ∧ (some (5 : Int) ≠ none) := by
  refine ⟨by decide, by decide, by decide⟩

/-- C3 (amended): the helpers return `false` exactly when no `(userId,
tenantId)` membership row exists (for every role set, including `[]` and
the full set); when a row exists they return whether its role is in the
required set — the visits/patients variant enumerates all four roles, so
membership existence suffices — and the membership's `deletedAt` is
ignored: a soft-deleted membership still authorizes. The helpers are pure
reads of the store. -/
theorem authorize_characterization (s : Store) (uid tid : String) (roles : List Role) :
    (OperationsService.isAuthorizedInTenant s uid tid roles = true ↔
      ∃ ut, findUserTenant s uid tid = some ut ∧ ut.role ∈ roles)
    ∧ (VisitsService.isAuthorizedInTenant s uid tid = (findUserTenant s uid tid).isSome)
    ∧ (VisitsService.isAdminInTenant s uid tid = true ↔
      ∃ ut, findUserTenant s uid tid = some ut ∧ ut.role = Role.ADMIN) := by
  refine ⟨?_, ?_, ?_⟩
  · unfold OperationsService.isAuthorizedInTenant
    cases h : findUserTenant s uid tid with
    | none => simp
    | some ut =>
      simp only [Option.some.injEq]
      constructor
      · intro hc
        exact ⟨ut, rfl, by simpa [List.elem_iff] using hc⟩
      · rintro ⟨ut2, h2, hmem⟩
        cases h2
        simpa [List.elem_iff] using hmem
  · unfold VisitsService.isAuthorizedInTenant
    cases h : findUserTenant s uid tid with
    | none => rfl
    | some ut => cases hr : ut.role <;> simp [hr]
  · unfold VisitsService.isAdminInTenant
    cases h : findUserTenant s uid tid with
    | none => simp
    | some ut =>
      simp only [Option.some.injEq, beq_iff_eq]
      constructor
      · intro hc; exact ⟨ut, rfl, hc⟩
      · rintro ⟨ut2, h2, hr⟩; cases h2; exact hr

/-! ## C5: patient numbering -/

/-- JavaScript `padStart(3, '0')` agrees with the spec's "left-padded with
zeros to 3 digits". -/
theorem padStart_three_zero (str : String) : padStart str 3 '0' = specLeftPad3 str := by
  unfold padStart specLeftPad3
  by_cases h : str.length ≥ 3
  · rw [if_pos h, Nat.sub_eq_zero_of_le h]
    cases str with
    | mk data => rfl
  · rw [if_neg h]

/-- C5: `generatePatientNumber` renders exactly the spec format
`"PT-" ++ uppercased tenant code ++ "-" ++ (patient-row count + 1)
left-padded with zeros to 3 digits`; for a tenant with code `ABC` and
exactly 2 existing patient rows the generated number is `PT-ABC-003`. -/
theorem generate_patient_number_format (s : Store) (tid : String) (tenant : Tenant)
    (ht : s.tenants.find? (fun t => t.id == tid) = some tenant) :
    PatientsService.generatePatientNumber s tid =
      some (specPatientNumber tenant.code
        ((s.patients.filter (fun p => p.tenantId == tid)).length))
    ∧ (tenant.code = "ABC" → (s.patients.filter (fun p => p.tenantId == tid)).length = 2 →
      PatientsService.generatePatientNumber s tid = some "PT-ABC-003") := by
  have h1 : PatientsService.generatePatientNumber s tid =
      some ("PT-" ++ toUpperStr tenant.code ++ "-" ++
        padStart (toString ((s.patients.filter (fun p => p.tenantId == tid)).length + 1)) 3 '0') := by
    unfold PatientsService.generatePatientNumber
    rw [ht]
  constructor
  · rw [h1, padStart_three_zero]
    rfl
  · intro hcode hcount
    rw [h1, hcode, hcount]
    decide

/-- Witness for C5 at a concrete store: tenant `t1` with code `ABC` and two
existing patients. -/
theorem generate_patient_number_format_witness :
    (({ tenants := [{ id := "t1", name := "Clinic", code := "ABC" }],
        patients := [{ id := "p1", tenantId := "t1", patientNumber := "PT-ABC-001",
                       fullName := "A", registrationFee := 500 },
                     { id := "p2", tenantId := "t1", patientNumber := "PT-ABC-002",
                       fullName := "B", registrationFee := 500 }] } : Store)).tenants.find?
        (fun t => t.id == "t1") =
      some { id := "t1", name := "Clinic", code := "ABC" }
    ∧ PatientsService.generatePatientNumber
      { tenants := [{ id := "t1", name := "Clinic", code := "ABC" }],
        patients := [{ id := "p1", tenantId := "t1", patientNumber := "PT-ABC-001",
                       fullName := "A", registrationFee := 500 },
                     { id := "p2", tenantId := "t1", patientNumber := "PT-ABC-002",
                       fullName := "B", registrationFee := 500 }] }
      "t1" = some "PT-ABC-003" :=
  ⟨by decide,
   (generate_patient_number_format
      { tenants := [{ id := "t1", name := "Clinic", code := "ABC" }],
        patients := [{ id := "p1", tenantId := "t1", patientNumber := "PT-ABC-001",
                       fullName := "A", registrationFee := 500 },
                     { id := "p2", tenantId := "t1", patientNumber := "PT-ABC-002",
                       fullName := "B", registrationFee := 500 }] }
      "t1" { id := "t1", name := "Clinic", code := "ABC" } (by decide)).2 rfl (by decide)⟩

/-! ## C1: findOne across tenants -/

/-- C1 counterexample: a patient in tenant `t1` fetched by a caller whose
only membership is ADMIN in `t2` gets a `403` envelope from
`PatientsService.findOne`, not the claimed `404` — a tenant mismatch is
observationally distinguishable from a nonexistent id. -/
theorem findOne_cross_tenant_counterexample :
    (PatientsService.findOne
      { tenants := [{ id := "t1", name := "A", code := "AAA" },
                    { id := "t2", name := "B", code := "BBB" }],
        userTenants := [{ userId := "u1", tenantId := "t2", role := Role.ADMIN }],
        patients := [{ id := "p1", tenantId := "t1", patientNumber := "PT-AAA-001",
                       fullName := "P", registrationFee := 500 }] }
      "p1" { id := "u1", tenantId := "t2" }).statusCode = 403
    ∧ ¬((PatientsService.findOne
      { tenants := [{ id := "t1", name := "A", code := "AAA" },
                    { id := "t2", name := "B", code := "BBB" }],
        userTenants := [{ userId := "u1", tenantId := "t2", role := Role.ADMIN }],
        patients := [{ id := "p1", tenantId := "t1", patientNumber := "PT-AAA-001",
                       fullName := "P", registrationFee := 500 }] }
      "p1" { id := "u1", tenantId := "t2" }).statusCode = 404) := by
  refine ⟨by decide, by decide⟩

/-- C1 (amended): in all three services, `findOne` on an existing, non-deleted
entity whose (patient's) tenant differs from the caller's returns the
`403` Forbidden envelope — not `404` — so a cross-tenant probe is
distinguishable from a nonexistent id, which yields `404`. -/
theorem findOne_tenant_mismatch_forbidden (s : Store) (c : Caller) :
    (∀ pid p, s.patients.find? (fun x => x.id == pid) = some p →
      p.deletedAt = none → p.tenantId ≠ c.tenantId →
      (PatientsService.findOne s pid c).statusCode = 403 ∧
        (PatientsService.findOne s pid c).success = false)
    ∧ (∀ vid v p, s.visits.find? (fun x => x.id == vid) = some v →
      v.deletedAt = none → s.patients.find? (fun x => x.id == v.patientId) = some p →
      p.tenantId ≠ c.tenantId →
      (VisitsService.findOne s vid c).statusCode = 403 ∧
        (VisitsService.findOne s vid c).success = false)
    ∧ (∀ oid o p, s.operations.find? (fun x => x.id == oid) = some o →
      o.deletedAt = none → s.patients.find? (fun x => x.id == o.patientId) = some p →
      p.tenantId ≠ c.tenantId →
      (OperationsService.findOne s oid c).statusCode = 403 ∧
        (OperationsService.findOne s oid c).success = false) := by
  refine ⟨?_, ?_, ?_⟩
  · intro pid p hfind hdel hne
    constructor <;> simp [PatientsService.findOne, hfind, hdel, hne]
  · intro vid v p hv hdel hp hne
    constructor <;> simp [VisitsService.findOne, hv, hdel, hp, hne]
  · intro oid o p ho hdel hp hne
    constructor <;> simp [OperationsService.findOne, ho, hdel, hp, hne]

/-- Witness for the amended C1 at the cross-tenant store. -/
theorem findOne_tenant_mismatch_forbidden_witness :
    (({ tenants := [{ id := "t1", name := "A", code := "AAA" },
                    { id := "t2", name := "B", code := "BBB" }],
        userTenants := [{ userId := "u1", tenantId := "t2", role := Role.ADMIN }],
        patients := [{ id := "p1", tenantId := "t1", patientNumber := "PT-AAA-001",
                       fullName := "P", registrationFee := 500 }] } : Store)).patients.find?
        (fun x => x.id == "p1") =
      some { id := "p1", tenantId := "t1", patientNumber := "PT-AAA-001",
             fullName := "P", registrationFee := 500 }
    ∧ (PatientsService.findOne
      { tenants := [{ id := "t1", name := "A", code := "AAA" },
                    { id := "t2", name := "B", code := "BBB" }],
        userTenants := [{ userId := "u1", tenantId := "t2", role := Role.ADMIN }],
        patients := [{ id := "p1", tenantId := "t1", patientNumber := "PT-AAA-001",
                       fullName := "P", registrationFee := 500 }] }
      "p1" { id := "u1", tenantId := "t2" }).statusCode = 403 :=
  ⟨by decide,
   ((findOne_tenant_mismatch_forbidden
      { tenants := [{ id := "t1", name := "A", code := "AAA" },
                    { id := "t2", name := "B", code := "BBB" }],
        userTenants := [{ userId := "u1", tenantId := "t2", role := Role.ADMIN }],
        patients := [{ id := "p1", tenantId := "t1", patientNumber := "PT-AAA-001",
                       fullName := "P", registrationFee := 500 }] }
      { id := "u1", tenantId := "t2" }).1 "p1"
      { id := "p1", tenantId := "t1", patientNumber := "PT-AAA-001",
        fullName := "P", registrationFee := 500 }
      (by decide) (by decide) (by decide)).1⟩

/-! ## C2: signup is not atomic -/

/-- C2: the claim says signup is transactional — a failure of the final
UserTenant insert must leave no User or Tenant row. The source wraps no
transaction around the three inserts: evaluating `signup` on an empty
store with the final insert failing returns a failure envelope while the
freshly created User row (email `a@b.c`) and Tenant row (code `ABC123`)
remain in the store, and no membership row exists. -/
theorem signup_ut_failure_persists_user_and_tenant :
    (AuthService.signup ({} : Store)
      { email := "a@b.c", password := "pw", name := "Alice", tenantName := "Clinic" }
      "u1" "t1" ["abc123"] true).1.success = false
    ∧ ((AuthService.signup ({} : Store)
      { email := "a@b.c", password := "pw", name := "Alice", tenantName := "Clinic" }
      "u1" "t1" ["abc123"] true).2.users.find? (fun u => u.email == "a@b.c") =
        some { id := "u1", email := "a@b.c", password := bcryptHash "pw",
               name := "Alice", role := Role.ADMIN })
    ∧ ((AuthService.signup ({} : Store)
      { email := "a@b.c", password := "pw", name := "Alice", tenantName := "Clinic" }
      "u1" "t1" ["abc123"] true).2.tenants.find? (fun t => t.code == "ABC123") =
        some { id := "t1", name := "Clinic", code := "ABC123" })
    ∧ (AuthService.signup ({} : Store)
      { email := "a@b.c", password := "pw", name := "Alice", tenantName := "Clinic" }
      "u1" "t1" ["abc123"] true).2.userTenants = [] := by
  refine ⟨by decide, by decide, by decide, by decide⟩

/-! ## C9: soft-delete idempotence of remove, restore on non-deleted rows -/

/-- C9: a second `OperationsService.remove` on an id whose first remove
succeeded finds `deletedAt` already set and returns the 404
`already deleted` envelope without touching the store; `restore` (doctor,
staff) on a row that is not currently soft-deleted returns the 404
`not deleted` envelope with the store unchanged. -/
theorem soft_delete_remove_restore_idempotence (s : Store) (c c2 : Caller) :
    (∀ id op patient now now2,
      s.operations.find? (fun o => o.id == id) = some op →
      op.deletedAt = none →
      s.patients.find? (fun p => p.id == op.patientId) = some patient →
      patient.tenantId = c.tenantId →
      OperationsService.isAuthorizedInTenant s c.id c.tenantId [Role.ADMIN] = true →
      OperationsService.remove (OperationsService.remove s id c now).2 id c2 now2 =
        ({ success := false, message := "Operation not found or already deleted",
           statusCode := 404 }, (OperationsService.remove s id c now).2))
    ∧ (∀ id d, s.doctors.find? (fun x => x.id == id) = some d → d.deletedAt = none →
      DoctorsService.restore s id c =
        ({ success := false, message := "Doctor not found or not deleted", statusCode := 404 }, s))
    ∧ (∀ id st, s.staffs.find? (fun x => x.id == id) = some st → st.deletedAt = none →
      StaffsService.restore s id c =
        ({ success := false, message := "Staff not found or not deleted", statusCode := 404 }, s)) := by
  refine ⟨?_, ?_, ?_⟩
  · intro id op patient now now2 hfind hdel hp htid hauth
    have hgp : ∀ y : Operation,
        ((if y.id == id then { y with deletedAt := some now } else y).id == id) = (y.id == id) := by
      intro y
      by_cases h : (y.id == id) = true <;> simp [h]
    have hops : (OperationsService.remove s id c now).2.operations =
        s.operations.map (fun o => if o.id == id then { o with deletedAt := some now } else o) := by
      simp only [OperationsService.remove, hfind, hdel, hp, htid, hauth]
      simp only [Option.isSome_none, Bool.false_eq_true, if_false, bne_self_eq_false,
        Bool.not_true, Bool.or_self]
      split <;> rfl
    have hfound : (OperationsService.remove s id c now).2.operations.find?
        (fun o => o.id == id) = some { op with deletedAt := some now } := by
      rw [hops]
      have hmap := find?_map_pres (fun o => o.id == id)
        (fun o => if o.id == id then { o with deletedAt := some now } else o) hgp
        s.operations op hfind
      simpa [List.find?_some hfind] using hmap
    rw [OperationsService.remove.eq_def, hfound]
    simp
  · intro id d hfind hdel
    simp [DoctorsService.restore, hfind, hdel]
  · intro id st hfind hdel
    simp [StaffsService.restore, hfind, hdel]

/-- Witness for C9: a concrete store with a live operation (removed twice),
a live doctor and a live staff row. -/
theorem soft_delete_remove_restore_idempotence_witness :
    (({ tenants := [{ id := "t1", name := "A", code := "AAA" }],
        userTenants := [{ userId := "u1", tenantId := "t1", role := Role.ADMIN }],
        patients := [{ id := "p1", tenantId := "t1", patientNumber := "PT-AAA-001",
                       fullName := "P", registrationFee := 500 }],
        doctors := [{ id := "d1", userId := "du1", tenantId := "t1" }],
        staffs := [{ id := "s1", userId := "su1", tenantId := "t1" }],
        operations := [{ id := "o1", patientId := "p1", name := "Op", date := 0,
                         surgeonId := "d1", fee := 100 }] } : Store)).operations.find?
        (fun o => o.id == "o1") =
      some { id := "o1", patientId := "p1", name := "Op", date := 0,
             surgeonId := "d1", fee := 100 }
    ∧ OperationsService.remove
        (OperationsService.remove
          { tenants := [{ id := "t1", name := "A", code := "AAA" }],
            userTenants := [{ userId := "u1", tenantId := "t1", role := Role.ADMIN }],
            patients := [{ id := "p1", tenantId := "t1", patientNumber := "PT-AAA-001",
                           fullName := "P", registrationFee := 500 }],
            doctors := [{ id := "d1", userId := "du1", tenantId := "t1" }],
            staffs := [{ id := "s1", userId := "su1", tenantId := "t1" }],
            operations := [{ id := "o1", patientId := "p1", name := "Op", date := 0,
                             surgeonId := "d1", fee := 100 }] }
          "o1" { id := "u1", tenantId := "t1" } 77).2
        "o1" { id := "u1", tenantId := "t1" } 99 =
      ({ success := false, message := "Operation not found or already deleted",
         statusCode := 404 },
       (OperationsService.remove
          { tenants := [{ id := "t1", name := "A", code := "AAA" }],
            userTenants := [{ userId := "u1", tenantId := "t1", role := Role.ADMIN }],
            patients := [{ id := "p1", tenantId := "t1", patientNumber := "PT-AAA-001",
                           fullName := "P", registrationFee := 500 }],
            doctors := [{ id := "d1", userId := "du1", tenantId := "t1" }],
            staffs := [{ id := "s1", userId := "su1", tenantId := "t1" }],
            operations := [{ id := "o1", patientId := "p1", name := "Op", date := 0,
                             surgeonId := "d1", fee := 100 }] }
          "o1" { id := "u1", tenantId := "t1" } 77).2) :=
  ⟨by decide,
   (soft_delete_remove_restore_idempotence
      { tenants := [{ id := "t1", name := "A", code := "AAA" }],
        userTenants := [{ userId := "u1", tenantId := "t1", role := Role.ADMIN }],
        patients := [{ id := "p1", tenantId := "t1", patientNumber := "PT-AAA-001",
                       fullName := "P", registrationFee := 500 }],
        doctors := [{ id := "d1", userId := "du1", tenantId := "t1" }],
        staffs := [{ id := "s1", userId := "su1", tenantId := "t1" }],
        operations := [{ id := "o1", patientId := "p1", name := "Op", date := 0,
                         surgeonId := "d1", fee := 100 }] }
      { id := "u1", tenantId := "t1" } { id := "u1", tenantId := "t1" }).1
      "o1"
      { id := "o1", patientId := "p1", name := "Op", date := 0, surgeonId := "d1", fee := 100 }
      { id := "p1", tenantId := "t1", patientNumber := "PT-AAA-001",
        fullName := "P", registrationFee := 500 }
      77 99 (by decide) (by decide) (by decide) (by decide) (by decide)⟩

/-! ## C6: login disambiguation with two tenants -/

/-- C6: for a user with exactly two memberships and no `tenantCode`, `login`
returns the success envelope with `isMultiTenant = true` listing exactly
those two tenants (id, name, code) and no token; with a code matching one
membership it issues a token whose `tenantId` claim is that tenant's id;
with a non-matching code it fails with the `Invalid tenant code` envelope. -/
theorem login_two_tenant_disambiguation (u : User) (m1 m2 : UserTenantJoined) :
    AuthService.login u [m1, m2] none =
      { success := true, statusCode := 200,
        message := "Multiple tenants found. Please select one.",
        isMultiTenant := true,
        tenants := [{ id := m1.tenant.id, name := m1.tenant.name, code := m1.tenant.code },
                    { id := m2.tenant.id, name := m2.tenant.name, code := m2.tenant.code }],
        token := none }
    ∧ (∀ code m, code ≠ "" →
      ([m1, m2].find? (fun ut => ut.tenant.code == code)) = some m →
      (AuthService.login u [m1, m2] (some code)).token =
        some { email := u.email, id := u.id, role := u.role, tenantId := m.tenant.id })
    ∧ (∀ code, code ≠ "" →
      ([m1, m2].find? (fun ut => ut.tenant.code == code)) = none →
      AuthService.login u [m1, m2] (some code) =
        { success := false, statusCode := 400, message := "Invalid tenant code" }) := by
  refine ⟨?_, ?_, ?_⟩
  · simp [AuthService.login]
  · intro code m hne hfind
    simp [AuthService.login, hne, hfind, AuthService.issueLogin]
  · intro code hne hfind
    simp [AuthService.login, hne, hfind]

/-- Witness for C6: a user in exactly two tenants; the code `BBB` resolves to
the second tenant's token. -/
theorem login_two_tenant_disambiguation_witness :
    (([{ userId := "u1", tenantId := "t1", role := Role.ADMIN,
         tenant := { id := "t1", name := "A", code := "AAA" } },
       { userId := "u1", tenantId := "t2", role := Role.STAFF,
         tenant := { id := "t2", name := "B", code := "BBB" } }] :
        List UserTenantJoined).find? (fun ut => ut.tenant.code == "BBB") =
      some { userId := "u1", tenantId := "t2", role := Role.STAFF,
             tenant := { id := "t2", name := "B", code := "BBB" } })
    ∧ (AuthService.login
        { id := "u1", email := "a@b.c", password := "pw", name := "Alice", role := Role.ADMIN }
        [{ userId := "u1", tenantId := "t1", role := Role.ADMIN,
           tenant := { id := "t1", name := "A", code := "AAA" } },
         { userId := "u1", tenantId := "t2", role := Role.STAFF,
           tenant := { id := "t2", name := "B", code := "BBB" } }]
        (some "BBB")).token =
      some { email := "a@b.c", id := "u1", role := Role.ADMIN, tenantId := "t2" } :=
  ⟨by decide,
   (login_two_tenant_disambiguation
      { id := "u1", email := "a@b.c", password := "pw", name := "Alice", role := Role.ADMIN }
      { userId := "u1", tenantId := "t1", role := Role.ADMIN,
        tenant := { id := "t1", name := "A", code := "AAA" } }
      { userId := "u1", tenantId := "t2", role := Role.STAFF,
        tenant := { id := "t2", name := "B", code := "BBB" } }).2.1
      "BBB"
      { userId := "u1", tenantId := "t2", role := Role.STAFF,
        tenant := { id := "t2", name := "B", code := "BBB" } }
      (by decide) (by decide)⟩

/-! ## C10: the token's role claim is the global `User.role` -/

/-- C10 (implicit): when login resolves a tenant, the issued token's `role`
claim is the user's global legacy `User.role`, while the entity services
authorize against the `UserTenant` membership's role; for a user whose
per-tenant role differs from the global one, the token's role claim
therefore differs from the role used for authorization. -/
theorem token_role_is_global_user_role (u : User) (uts : List UserTenantJoined)
    (code : String) (m : UserTenantJoined) (s : Store) (ut : UserTenant)
    (hc : code ≠ "") (hfind : uts.find? (fun x => x.tenant.code == code) = some m)
    (hut : findUserTenant s u.id m.tenant.id = some ut) (hne : ut.role ≠ u.role) :
    (AuthService.login u uts (some code)).token =
      some { email := u.email, id := u.id, role := u.role, tenantId := m.tenant.id }
    ∧ (∀ roles : List Role, OperationsService.isAuthorizedInTenant s u.id m.tenant.id roles =
        roles.contains ut.role)
    ∧ (AuthService.login u uts (some code)).token.map TokenPayload.role ≠ some ut.role := by
  have h1 : (AuthService.login u uts (some code)).token =
      some { email := u.email, id := u.id, role := u.role, tenantId := m.tenant.id } := by
    simp [AuthService.login, hc, hfind, AuthService.issueLogin]
  refine ⟨h1, ?_, ?_⟩
  · intro roles
    simp [OperationsService.isAuthorizedInTenant, hut]
  · rw [h1]
    exact fun h => hne (Option.some.inj h).symm

/-- Witness for C10: global role STAFF, per-tenant membership role ADMIN. -/
theorem token_role_is_global_user_role_witness :
    ("BBB" : String) ≠ ""
    ∧ (AuthService.login
        { id := "u1", email := "a@b.c", password := "pw", name := "Alice", role := Role.STAFF }
        [{ userId := "u1", tenantId := "t2", role := Role.ADMIN,
           tenant := { id := "t2", name := "B", code := "BBB" } }]
        (some "BBB")).token =
      some { email := "a@b.c", id := "u1", role := Role.STAFF, tenantId := "t2" } :=
  ⟨by decide,
   (token_role_is_global_user_role
      { id := "u1", email := "a@b.c", password := "pw", name := "Alice", role := Role.STAFF }
      [{ userId := "u1", tenantId := "t2", role := Role.ADMIN,
         tenant := { id := "t2", name := "B", code := "BBB" } }]
      "BBB"
      { userId := "u1", tenantId := "t2", role := Role.ADMIN,
        tenant := { id := "t2", name := "B", code := "BBB" } }
      { userTenants := [{ userId := "u1", tenantId := "t2", role := Role.ADMIN }] }
      { userId := "u1", tenantId := "t2", role := Role.ADMIN }
      (by decide) (by decide) (by decide) (by decide)).1⟩

/-! ## C4: the 14-day fee-waiver window of Visit.create -/

/-- C4: for an authorized `Visit.create` on an existing patient: the call
succeeds (201) and increments the patient's `noOfVisits` by 1; when the
most recent visit is strictly within the last 14 days no REGISTRATION
billing row is added and the new visit inherits the prior `feeValidUntil`;
when it is strictly older than 14 days, or no prior visit exists, one
REGISTRATION/UNPAID billing row for the patient's `registrationFee` is
added and `feeValidUntil = now + 14 days`. -/
theorem visit_create_fee_window (s : Store) (dto : CreateVisitDto) (user : Caller)
    (now : Int) (vid bid : String) (tenant : Tenant) (patient : Patient) (doctor : Doctor)
    (hauth : VisitsService.isAuthorizedInTenant s user.id user.tenantId = true)
    (htenant : s.tenants.find? (fun t => t.id == user.tenantId) = some tenant)
    (hpat : s.patients.find?
      (fun p => p.id == dto.patientId && p.tenantId == user.tenantId) = some patient)
    (hpid : s.patients.find? (fun p => p.id == dto.patientId) = some patient)
    (hdoc : s.doctors.find?
      (fun d => d.id == dto.doctorId && d.tenantId == user.tenantId) = some doctor)
    (hfee : negFee dto.consultationFee = false) :
    (VisitsService.create s dto user now vid bid).1.statusCode = 201
    ∧ (VisitsService.create s dto user now vid bid).2.patients.find?
        (fun p => p.id == dto.patientId) =
      some { patient with noOfVisits := patient.noOfVisits + 1 }
    ∧ (∀ lv, lastVisitOf s dto.patientId = some lv → now - 14 * dayMs < lv.visitDate →
        (VisitsService.create s dto user now vid bid).2.billings = s.billings
        ∧ ((VisitsService.create s dto user now vid bid).1.data.map Visit.feeValidUntil =
            some lv.feeValidUntil))
    ∧ (∀ lv, lastVisitOf s dto.patientId = some lv → lv.visitDate < now - 14 * dayMs →
        (VisitsService.create s dto user now vid bid).2.billings =
          s.billings ++ [{ id := bid, patientId := dto.patientId,
                           btype := BillingType.REGISTRATION,
                           amount := patient.registrationFee,
                           status := PaymentStatus.UNPAID, createdAt := now }]
        ∧ ((VisitsService.create s dto user now vid bid).1.data.map Visit.feeValidUntil =
            some (some (now + 14 * dayMs))))
    ∧ (lastVisitOf s dto.patientId = none →
        (VisitsService.create s dto user now vid bid).2.billings =
          s.billings ++ [{ id := bid, patientId := dto.patientId,
                           btype := BillingType.REGISTRATION,
                           amount := patient.registrationFee,
                           status := PaymentStatus.UNPAID, createdAt := now }]
        ∧ ((VisitsService.create s dto user now vid bid).1.data.map Visit.feeValidUntil =
            some (some (now + 14 * dayMs)))) := by
  have hgp : ∀ y : Patient,
      ((if y.id == dto.patientId then { y with noOfVisits := y.noOfVisits + 1 } else y).id ==
        dto.patientId) = (y.id == dto.patientId) := by
    intro y
    by_cases h : (y.id == dto.patientId) = true <;> simp [h]
  have hfound : (s.patients.map (fun p =>
      if p.id == dto.patientId then { p with noOfVisits := p.noOfVisits + 1 } else p)).find?
        (fun p => p.id == dto.patientId) =
      some { patient with noOfVisits := patient.noOfVisits + 1 } := by
    have hmap := find?_map_pres (fun p => p.id == dto.patientId)
      (fun p => if p.id == dto.patientId then { p with noOfVisits := p.noOfVisits + 1 } else p)
      hgp s.patients patient hpid
    simpa [List.find?_some hpid] using hmap
  refine ⟨?_, ?_, ?_, ?_, ?_⟩
  · simp [VisitsService.create, hauth, htenant, hpat, hdoc, hfee]
  · simp only [VisitsService.create, hauth, htenant, hpat, hdoc, hfee, Bool.not_true,
      Bool.false_eq_true, if_false]
    split <;> exact hfound
  · intro lv hlv hlt
    have hnn : (decide (lv.visitDate < now - 14 * dayMs)) = false :=
      decide_eq_false (lt_asymm hlt)
    constructor <;>
      simp [VisitsService.create, hauth, htenant, hpat, hdoc, hfee, hlv, hnn]
  · intro lv hlv hlt
    have hnn : (decide (lv.visitDate < now - 14 * dayMs)) = true := decide_eq_true hlt
    constructor <;>
      simp [VisitsService.create, hauth, htenant, hpat, hdoc, hfee, hlv, hnn]
  · intro hlv
    constructor <;>
      simp [VisitsService.create, hauth, htenant, hpat, hdoc, hfee, hlv]

/-- Witness for C4: a prior visit exactly 13 days old (visitDate 0, now =
13 days in ms) adds no billing row. -/
theorem visit_create_fee_window_witness :
    VisitsService.isAuthorizedInTenant
      { tenants := [{ id := "t1", name := "A", code := "AAA" }],
        userTenants := [{ userId := "u1", tenantId := "t1", role := Role.STAFF }],
        patients := [{ id := "p1", tenantId := "t1", patientNumber := "PT-AAA-001",
                       fullName := "P", registrationFee := 500, noOfVisits := 1 }],
        doctors := [{ id := "d1", userId := "du1", tenantId := "t1" }],
        visits := [{ id := "v0", patientId := "p1", doctorId := "d1", staffId := "u1",
                     notes := "Initial registration", consultationFee := 0, visitDate := 0,
                     feeValidUntil := some 1209600000 }] }
      "u1" "t1" = true
    ∧ (VisitsService.create
        { tenants := [{ id := "t1", name := "A", code := "AAA" }],
          userTenants := [{ userId := "u1", tenantId := "t1", role := Role.STAFF }],
          patients := [{ id := "p1", tenantId := "t1", patientNumber := "PT-AAA-001",
                         fullName := "P", registrationFee := 500, noOfVisits := 1 }],
          doctors := [{ id := "d1", userId := "du1", tenantId := "t1" }],
          visits := [{ id := "v0", patientId := "p1", doctorId := "d1", staffId := "u1",
                       notes := "Initial registration", consultationFee := 0, visitDate := 0,
                       feeValidUntil := some 1209600000 }] }
        { patientId := "p1", doctorId := "d1" } { id := "u1", tenantId := "t1" }
        1123200000 "v1" "b1").2.billings =
      ({ tenants := [{ id := "t1", name := "A", code := "AAA" }],
         userTenants := [{ userId := "u1", tenantId := "t1", role := Role.STAFF }],
         patients := [{ id := "p1", tenantId := "t1", patientNumber := "PT-AAA-001",
                        fullName := "P", registrationFee := 500, noOfVisits := 1 }],
         doctors := [{ id := "d1", userId := "du1", tenantId := "t1" }],
         visits := [{ id := "v0", patientId := "p1", doctorId := "d1", staffId := "u1",
                      notes := "Initial registration", consultationFee := 0, visitDate := 0,
                      feeValidUntil := some 1209600000 }] } : Store).billings :=
  ⟨by decide,
   ((visit_create_fee_window
      { tenants := [{ id := "t1", name := "A", code := "AAA" }],
        userTenants := [{ userId := "u1", tenantId := "t1", role := Role.STAFF }],
        patients := [{ id := "p1", tenantId := "t1", patientNumber := "PT-AAA-001",
                       fullName := "P", registrationFee := 500, noOfVisits := 1 }],
        doctors := [{ id := "d1", userId := "du1", tenantId := "t1" }],
        visits := [{ id := "v0", patientId := "p1", doctorId := "d1", staffId := "u1",
                     notes := "Initial registration", consultationFee := 0, visitDate := 0,
                     feeValidUntil := some 1209600000 }] }
      { patientId := "p1", doctorId := "d1" } { id := "u1", tenantId := "t1" }
      1123200000 "v1" "b1"
      { id := "t1", name := "A", code := "AAA" }
      { id := "p1", tenantId := "t1", patientNumber := "PT-AAA-001",
        fullName := "P", registrationFee := 500, noOfVisits := 1 }
      { id := "d1", userId := "du1", tenantId := "t1" }
      (by decide) (by decide) (by decide) (by decide) (by decide) (by decide)).2.2.1
      { id := "v0", patientId := "p1", doctorId := "d1", staffId := "u1",
        notes := "Initial registration", consultationFee := 0, visitDate := 0,
        feeValidUntil := some 1209600000 }
      (by decide) (by decide)).1⟩

/-! ## C7: operation fee validation and billing synchronisation -/

/-- The `latestOpBilling` only reads the billing rows, so it is unchanged by an
update of the operations list. -/
theorem latestOpBilling_operations_congr (s : Store) (ops : List Operation) (pid : String) :
    latestOpBilling { s with operations := ops } pid = latestOpBilling s pid := rfl

/-- C7: `Operation.create` and `Operation.update` reject a non-positive fee
with the 400 validation envelope and an unchanged store; an update with a
valid changed fee also sets the most recent non-deleted OPERATION billing
row's amount to the new fee in the same call. -/
theorem operation_fee_validation_and_billing_sync (s : Store) (user : Caller) :
    (∀ (dto : CreateOperationDto) patient surgeon now oid bid,
      OperationsService.isAuthorizedInTenant s user.id user.tenantId
        [Role.DOCTOR, Role.ADMIN] = true →
      s.patients.find? (fun p =>
        p.id == dto.patientId && p.tenantId == user.tenantId && p.deletedAt.isNone) =
        some patient →
      s.doctors.find? (fun d =>
        d.id == dto.surgeonId && d.tenantId == user.tenantId && d.deletedAt.isNone) =
        some surgeon →
      dto.fee ≤ 0 →
      OperationsService.create s dto user now oid bid =
        ({ success := false, message := "Operation fee must be positive", statusCode := 400 }, s))
    ∧ (∀ id (dto : UpdateOperationDto) op patient f,
      s.operations.find? (fun o => o.id == id) = some op →
      op.deletedAt = none →
      s.patients.find? (fun p => p.id == op.patientId) = some patient →
      patient.tenantId = user.tenantId →
      OperationsService.isAuthorizedInTenant s user.id user.tenantId
        [Role.ADMIN, Role.DOCTOR] = true →
      dto.fee = some f → f ≤ 0 →
      OperationsService.update s id dto user =
        ({ success := false, message := "Operation fee must be positive", statusCode := 400 }, s))
    ∧ (∀ id (dto : UpdateOperationDto) op patient f b,
      s.operations.find? (fun o => o.id == id) = some op →
      op.deletedAt = none →
      s.patients.find? (fun p => p.id == op.patientId) = some patient →
      patient.tenantId = user.tenantId →
      OperationsService.isAuthorizedInTenant s user.id user.tenantId
        [Role.ADMIN, Role.DOCTOR] = true →
      dto.fee = some f → 0 < f →
      latestOpBilling s op.patientId = some b →
      s.billings.find? (fun x => x.id == b.id) = some b →
      (OperationsService.update s id dto user).1.statusCode = 200
      ∧ (OperationsService.update s id dto user).2.billings.find? (fun x => x.id == b.id) =
          some { b with amount := f }) := by
  refine ⟨?_, ?_, ?_⟩
  · intro dto patient surgeon now oid bid hauth hp hd hfee
    simp [OperationsService.create, hauth, hp, hd, hfee]
  · intro id dto op patient f hfind hdel hp htid hauth hf hfee
    have hnp : nonPosFee (some f) = true := by
      simp only [nonPosFee]
      exact decide_eq_true hfee
    simp [OperationsService.update, hfind, hdel, hp, htid, hauth, hf, hnp]
  · intro id dto op patient f b hfind hdel hp htid hauth hf hpos hlb hbf
    have hnp : nonPosFee (some f) = false := by
      simp only [nonPosFee, decide_eq_false_iff_not]
      omega
    have hgb : ∀ y : Billing,
        ((if y.id == b.id then { y with amount := f } else y).id == b.id) = (y.id == b.id) := by
      intro y
      by_cases h : (y.id == b.id) = true <;> simp [h]
    have h2 : (OperationsService.update s id dto user).2.billings =
        s.billings.map (fun x => if x.id == b.id then { x with amount := f } else x) := by
      simp only [OperationsService.update, hfind, hdel, hp, htid, hauth, hf, hnp,
        latestOpBilling_operations_congr, hlb, Option.isSome_none, Bool.false_eq_true,
        if_false, bne_self_eq_false, Bool.not_true, Bool.or_self]
    constructor
    · simp only [OperationsService.update, hfind, hdel, hp, htid, hauth, hf, hnp,
        latestOpBilling_operations_congr, hlb, Option.isSome_none, Bool.false_eq_true,
        if_false, bne_self_eq_false, Bool.not_true, Bool.or_self]
    · rw [h2, find?_map_pres (fun x => x.id == b.id)
        (fun x => if x.id == b.id then { x with amount := f } else x) hgb s.billings b hbf]
      simp [List.find?_some hbf]

/-- Witness for C7 at a concrete store: updating the operation's fee to 250
rewrites the linked OPERATION billing row's amount. -/
theorem operation_fee_validation_and_billing_sync_witness :
    (({ tenants := [{ id := "t1", name := "A", code := "AAA" }],
        userTenants := [{ userId := "u1", tenantId := "t1", role := Role.DOCTOR }],
        patients := [{ id := "p1", tenantId := "t1", patientNumber := "PT-AAA-001",
                       fullName := "P", registrationFee := 500 }],
        operations := [{ id := "o1", patientId := "p1", name := "Op", date := 0,
                         surgeonId := "d1", fee := 100 }],
        billings := [{ id := "b1", patientId := "p1", btype := BillingType.OPERATION,
                       amount := 100, status := PaymentStatus.UNPAID,
                       createdAt := 0 }] } : Store)).operations.find?
        (fun o => o.id == "o1") =
      some { id := "o1", patientId := "p1", name := "Op", date := 0,
             surgeonId := "d1", fee := 100 }
    ∧ (OperationsService.update
        { tenants := [{ id := "t1", name := "A", code := "AAA" }],
          userTenants := [{ userId := "u1", tenantId := "t1", role := Role.DOCTOR }],
          patients := [{ id := "p1", tenantId := "t1", patientNumber := "PT-AAA-001",
                         fullName := "P", registrationFee := 500 }],
          operations := [{ id := "o1", patientId := "p1", name := "Op", date := 0,
                           surgeonId := "d1", fee := 100 }],
          billings := [{ id := "b1", patientId := "p1", btype := BillingType.OPERATION,
                         amount := 100, status := PaymentStatus.UNPAID, createdAt := 0 }] }
        "o1" { fee := some 250 } { id := "u1", tenantId := "t1" }).2.billings.find?
        (fun x => x.id == "b1") =
      some { id := "b1", patientId := "p1", btype := BillingType.OPERATION,
             amount := 250, status := PaymentStatus.UNPAID, createdAt := 0 } :=
  ⟨by decide,
   ((operation_fee_validation_and_billing_sync
      { tenants := [{ id := "t1", name := "A", code := "AAA" }],
        userTenants := [{ userId := "u1", tenantId := "t1", role := Role.DOCTOR }],
        patients := [{ id := "p1", tenantId := "t1", patientNumber := "PT-AAA-001",
                       fullName := "P", registrationFee := 500 }],
        operations := [{ id := "o1", patientId := "p1", name := "Op", date := 0,
                         surgeonId := "d1", fee := 100 }],
        billings := [{ id := "b1", patientId := "p1", btype := BillingType.OPERATION,
                       amount := 100, status := PaymentStatus.UNPAID, createdAt := 0 }] }
      { id := "u1", tenantId := "t1" }).2.2
      "o1" { fee := some 250 }
      { id := "o1", patientId := "p1", name := "Op", date := 0, surgeonId := "d1", fee := 100 }
      { id := "p1", tenantId := "t1", patientNumber := "PT-AAA-001",
        fullName := "P", registrationFee := 500 }
      250
      { id := "b1", patientId := "p1", btype := BillingType.OPERATION,
        amount := 100, status := PaymentStatus.UNPAID, createdAt := 0 }
      (by decide) (by decide) (by decide) (by decide) (by decide) (by decide) (by decide)
      (by decide) (by decide)).2⟩

/-! ## C8: Patient.create side effects -/

/-- C8: a successful `Patient.create` adds, besides the Patient row, exactly
one Billing row for the new patient (REGISTRATION, UNPAID, amount =
`registrationFee`) and exactly one Visit row (notes `Initial registration`,
consultationFee 0), and leaves the new patient's `noOfVisits` at 1; a
`registrationFee ≤ 0` is rejected with the 400 validation envelope before
any row is written. -/
theorem patient_create_side_effects (s : Store) (dto : CreatePatientDto) (user : Caller)
    (now : Int) (pid bid vid : String) (tenant : Tenant)
    (hauth : PatientsService.isAuthorizedInTenant s user.id user.tenantId = true)
    (htenant : s.tenants.find? (fun t => t.id == user.tenantId) = some tenant) :
    (dto.registrationFee ≤ 0 →
      PatientsService.create s dto user now pid bid vid =
        ({ success := false, message := "Registration fee must be positive",
           statusCode := 400 }, s))
    ∧ (0 < dto.registrationFee →
      doctorMissing s user.tenantId dto.doctorId = false →
      phoneBad dto.phone = false →
      s.billings.filter (fun b => b.patientId == pid) = [] →
      s.visits.filter (fun v => v.patientId == pid) = [] →
      s.patients.find? (fun p => p.id == pid) = none →
      (PatientsService.create s dto user now pid bid vid).1.statusCode = 201
      ∧ (PatientsService.create s dto user now pid bid vid).2.billings.filter
          (fun b => b.patientId == pid) =
        [{ id := bid, patientId := pid, btype := BillingType.REGISTRATION,
           amount := dto.registrationFee, status := PaymentStatus.UNPAID, createdAt := now }]
      ∧ (PatientsService.create s dto user now pid bid vid).2.visits.filter
          (fun v => v.patientId == pid) =
        [{ id := vid, patientId := pid, doctorId := dto.doctorId.getD "", staffId := user.id,
           notes := "Initial registration", consultationFee := 0, visitDate := now }]
      ∧ (PatientsService.create s dto user now pid bid vid).2.patients.find?
          (fun p => p.id == pid) =
        some { id := pid, tenantId := user.tenantId,
               patientNumber := "PT-" ++ toUpperStr tenant.code ++ "-" ++
                 padStart (toString
                   ((s.patients.filter (fun p => p.tenantId == user.tenantId)).length + 1)) 3 '0',
               fullName := dto.fullName, registrationFee := dto.registrationFee,
               noOfVisits := 1, doctorId := dto.doctorId, phone := dto.phone }) := by
  constructor
  · intro hfee
    simp [PatientsService.create, hauth, htenant, hfee]
  · intro hpos hdoc hphone hbf hvf hpn
    have hnle : ¬ dto.registrationFee ≤ 0 := not_le.mpr hpos
    have hg : ∀ y : Patient,
        ((if y.id == pid then { y with noOfVisits := 1 } else y).id == pid) = (y.id == pid) := by
      intro y
      by_cases h : (y.id == pid) = true <;> simp [h]
    refine ⟨?_, ?_, ?_, ?_⟩
    · simp [PatientsService.create, hauth, htenant, hnle, hdoc, hphone]
    · simp only [PatientsService.create, hauth, htenant, hnle, hdoc, hphone,
        Bool.false_eq_true, if_false, Bool.not_true, eq_self_iff_true, if_true]
      simp [List.filter_append, hbf]
    · simp only [PatientsService.create, hauth, htenant, hnle, hdoc, hphone,
        Bool.false_eq_true, if_false, Bool.not_true, eq_self_iff_true, if_true]
      simp [List.filter_append, hvf]
    · simp only [PatientsService.create, hauth, htenant, hnle, hdoc, hphone,
        Bool.false_eq_true, if_false, Bool.not_true, eq_self_iff_true, if_true]
      rw [List.map_append, List.find?_append,
        find?_map_pres_none (fun p => p.id == pid)
          (fun p => if p.id == pid then { p with noOfVisits := 1 } else p) hg s.patients hpn]
      simp

/-- Witness for C8 at a concrete empty-history store. -/
theorem patient_create_side_effects_witness :
    PatientsService.isAuthorizedInTenant
      { tenants := [{ id := "t1", name := "Clinic", code := "abc" }],
        userTenants := [{ userId := "u1", tenantId := "t1", role := Role.NURSE }] }
      "u1" "t1" = true
    ∧ (PatientsService.create
        { tenants := [{ id := "t1", name := "Clinic", code := "abc" }],
          userTenants := [{ userId := "u1", tenantId := "t1", role := Role.NURSE }] }
        { fullName := "Pat", registrationFee := 300 } { id := "u1", tenantId := "t1" }
        5 "p1" "b1" "v1").2.patients.find? (fun p => p.id == "p1") =
      some { id := "p1", tenantId := "t1", patientNumber := "PT-ABC-001",
             fullName := "Pat", registrationFee := 300, noOfVisits := 1 } :=
  ⟨by decide,
   by
    have h := ((patient_create_side_effects
      { tenants := [{ id := "t1", name := "Clinic", code := "abc" }],
        userTenants := [{ userId := "u1", tenantId := "t1", role := Role.NURSE }] }
      { fullName := "Pat", registrationFee := 300 } { id := "u1", tenantId := "t1" }
      5 "p1" "b1" "v1" { id := "t1", name := "Clinic", code := "abc" }
      (by decide) (by decide)).2
      (by decide) (by decide) (by decide) (by decide) (by decide) (by decide)).2.2.2
    simpa using h⟩

end EMR
